import Mathlib

/-!
Verification development for the `ook.object_type` module of the Ontic
repository. The module provides three operations on schema-bound objects:

* `create_ook_type name schema` — mint a new named type, bound to a schema;
* `validate_object the_object raise_value_error` — validate a whole object
  against the schema of its type;
* `validate_value property_name ook_object raise_validation_error` —
  validate a single named property of an object.

The embedding below translates `src/ook/object_type.py` directly.  The
collaborating modules `meta_type`, `schema_type` and `validation_exception`
are imported by the source but their files are not part of the shown
source; where their behaviour is needed it is modelled from the spec and
marked as such in the doc comment.  The per-value validator
`meta_type.validate_value` is kept as an explicit function parameter `vv`
of the two validation entry points, mirroring the fact that the source
calls it as an external collaborator.
-/

set_option autoImplicit false

namespace Ook

/-- Python values as they appear in records and as arguments: `PyValue.none`
is Python `None`; the remaining constructors cover the primitive and list
values a record can store. -/
inductive PyValue where
  | none
  | int (n : Int)
  | str (s : String)
  | bool (b : Bool)
  | list (l : List PyValue)

/-- Modelled from the spec: a `PropertySchema` (spec: PropertyRule) is the
constraint set of one property — kind tag, required flag, enumerated
values and bounds (spec section 3).  `meta_type.py` is not part of the
shown source; the claims only read these fields through the per-value
validator, so the structure records the fields the spec lists. -/
structure PropertySchema where
  property_type : Option String := Option.none
  required : Bool := false
  enum : Option (List PyValue) := Option.none
  min : Option Int := Option.none
  max : Option Int := Option.none

/-- Modelled from the spec: `schema_type.SchemaType` is an ordered mapping
from property name to `PropertySchema` (spec section 4.2: "ordered mapping
`property_name -> PropertyRule`").  `schema_type.py` is not part of the
shown source.  The `id` field models Python object identity: each
`SchemaType` object allocated at runtime carries a distinct id. -/
structure SchemaType where
  id : Nat
  props : List (String × PropertySchema)

/-- Lookup in an association list keyed by strings: first binding wins,
`Option.none` when the key is absent.  This is the shared dictionary-read
primitive of the embedding. -/
def alist_lookup {β : Type} : List (String × β) → String → Option β
  | [], _ => Option.none
  | (k, v) :: rest, n => if k = n then Option.some v else alist_lookup rest n

/-- Removal of every binding of a key from an association list, the
dictionary-delete primitive of the embedding. -/
def alist_remove {β : Type} : List (String × β) → String → List (String × β)
  | [], _ => []
  | (k, v) :: rest, n =>
    if k = n then alist_remove rest n else (k, v) :: alist_remove rest n

/-- Lookup of a property rule by name, the read-only `get` of the spec
(section 4.2): first binding wins, `Option.none` when the name is absent. -/
def SchemaType.get (s : SchemaType) (name : String) : Option PropertySchema :=
  alist_lookup s.props name

/-- Iteration order of the schema, the `iteritems()` of the source at line
138, modelled from the spec as schema-declaration order. -/
def SchemaType.items (s : SchemaType) : List (String × PropertySchema) :=
  s.props

/-- An `ObjectType` instance: the named-attribute container of the spec
(section 3, Record), holding stored values by name together with the
non-owning back-reference to the Schema of its type.  Modelled from the
spec: `meta_type.MetaType` (the base of `ObjectType`) is not part of the
shown source; the spec describes it as "a generic named-attribute container
with get-with-default semantics". -/
structure OokObject where
  schema : SchemaType
  values : List (String × PyValue)

/-- Modelled from the spec: `MetaType.get_schema()` returns the Schema the
instance is bound to (the back-reference of spec section 3). -/
def OokObject.get_schema (o : OokObject) : SchemaType :=
  o.schema

/-- Modelled from the spec: `the_object.get(name, default)` — Python
`dict.get` semantics, "get-by-name with a default" (spec section 2).  A
stored binding is returned even when the stored value is `PyValue.none`;
the default is returned only when no binding exists. -/
def OokObject.get (o : OokObject) (name : String) (default : PyValue) : PyValue :=
  match alist_lookup o.values name with
  | Option.some v => v
  | Option.none => default

/-- Python `the_object[name] = v`: replace or add the binding for `name`. -/
def OokObject.set (o : OokObject) (name : String) (v : PyValue) : OokObject :=
  ⟨o.schema, (name, v) :: alist_remove o.values name⟩

/-- Python `del the_object[name]`: drop the binding for `name`. -/
def OokObject.erase (o : OokObject) (name : String) : OokObject :=
  ⟨o.schema, alist_remove o.values name⟩

/-- An argument that the source inspects with `isinstance(-, ObjectType)`:
either an `ObjectType` instance or any other Python value (`PyValue.none`
plays Python `None`). -/
inductive PyArg where
  | val (v : PyValue)
  | obj (o : OokObject)

/-- The failures `object_type.py` can raise: `ValueError` with a message
(the spec's InvalidArgument), and `ValidationException` carrying the full
violation list (the spec's ValidationFailed; `validation_exception.py` is
not part of the shown source, modelled from the spec as a failure whose
payload is the violation list). -/
inductive OokError where
  | valueError (msg : String)
  | validationException (errors : List String)

/-- The type of the external per-value validator
`meta_type.validate_value(name, property_schema, value)` from `meta_type.py`
(not part of the shown source): it returns the list of violation strings
for one value against one rule.  Per spec section 4.3 it is a stateless
pure function of its inputs. -/
def ValueValidator : Type :=
  String → PropertySchema → PyValue → List String

/-- The schema argument of `create_ook_type`, as the source discriminates
it: Python `None`, a plain `dict` mapping names to (already parsed)
property rules, a `SchemaType` instance (modelled from the spec as a dict
subclass, since section 4.2 says construction "accepts either a plain
mapping ... or an existing Schema"), or any non-dict value. -/
inductive SchemaArg where
  | pynone
  | dict (d : List (String × PropertySchema))
  | schema (s : SchemaType)
  | other (v : PyValue)

/-- The class object returned by `type(name, (ObjectType,), dict())` at
source line 102, with `OOK_SCHEMA` bound at line 107.  The `id` field
models Python object identity (each `type(...)` call allocates a fresh
object); `bases` records the base classes. -/
structure OokTypeObj where
  id : Nat
  name : String
  bases : List String
  OOK_SCHEMA : SchemaType

/-- Modelled from the spec: instantiating a produced type (`MyType()`)
yields an empty record carrying the back-reference to the bound Schema
(spec section 4.4: "Every instance of the produced type carries a
back-reference to this Schema"). -/
def OokTypeObj.new (t : OokTypeObj) : OokObject :=
  ⟨t.OOK_SCHEMA, []⟩

/-- Embedding of `create_ook_type(name, schema)` (source lines 82..109).
Python object allocation is modelled with a counter `ctr` of fresh ids:
`type(...)` allocates one object, and the `SchemaType(schema)` wrap at
line 105 allocates another — only in the plain-dict case.  `name` is
`Option.none` for Python `None`; the source compares `name is ''`, which
for CPython interned strings is equality with the empty string. -/
def create_ook_type (name : Option String) (schema : SchemaArg) (ctr : Nat) :
    Except OokError (OokTypeObj × Nat) :=
  match name with
  | Option.none => Except.error (OokError.valueError "The string \"name\" argument is required.")
  | Option.some n =>
    if n = "" then
      Except.error (OokError.valueError "The string \"name\" argument is required.")
    else
      match schema with
      | SchemaArg.pynone =>
        Except.error (OokError.valueError "The schema dictionary is required.")
      | SchemaArg.other _ =>
        Except.error (OokError.valueError "The schema must be a dict or SchemaType.")
      | SchemaArg.dict d =>
        let ook_id := ctr
        let bound : SchemaType := ⟨ctr + 1, d⟩
        Except.ok (⟨ook_id, n, ["ObjectType"], bound⟩, ctr + 2)
      | SchemaArg.schema s =>
        Except.ok (⟨ctr, n, ["ObjectType"], s⟩, ctr + 1)

/-- The violation-collecting loop of `validate_object` (source lines
136..142): iterate the schema items in order, fetch each value with a
`None` default, call the per-value validator and extend the accumulated
list. -/
def collect_value_errors (vv : ValueValidator) (o : OokObject) : List String :=
  (o.get_schema.items).foldl
    (fun value_errors p => value_errors ++ vv p.1 p.2 (o.get p.1 PyValue.none)) []

/-- Embedding of `validate_object(the_object, raise_value_error)` (source
lines 112..147): reject non-`ObjectType` arguments with `ValueError`,
collect the violations of every schema property in order, then raise
`ValidationException` iff the list is non-empty and the flag is set,
otherwise return the list. -/
def validate_object (vv : ValueValidator) (the_object : PyArg)
    (raise_value_error : Bool) : Except OokError (List String) :=
  match the_object with
  | PyArg.val _ =>
    Except.error (OokError.valueError
      "Validation can only support validation of objects derived from ook.object_type.ObjectType.")
  | PyArg.obj o =>
    let value_errors := collect_value_errors vv o
    if ¬value_errors.isEmpty ∧ raise_value_error then
      Except.error (OokError.validationException value_errors)
    else
      Except.ok value_errors

/-- Embedding of `validate_value(property_name, ook_object,
raise_validation_error)` (source lines 150..197): the argument checks of
lines 170..180 in source order, the schema lookup of lines 184..187, then
the single-property validation and the raise/return contract of lines
189..197. -/
def validate_value (vv : ValueValidator) (property_name : PyValue)
    (ook_object : PyArg) (raise_validation_error : Bool) :
    Except OokError (List String) :=
  match property_name with
  | PyValue.none =>
    Except.error (OokError.valueError "\"property_name\" is required, cannot be None.")
  | PyValue.str s =>
      if s.length < 1 then
        Except.error (OokError.valueError "\"property_name\" is not a valid string.")
      else
        match ook_object with
        | PyArg.val PyValue.none =>
          Except.error (OokError.valueError "\"ook_object\" is required, cannot be None.")
        | PyArg.val _ =>
          Except.error (OokError.valueError
            "\"ook_object\" must be ObjectType or child type of ObjectType.")
        | PyArg.obj o =>
          match o.get_schema.get s with
          | Option.none =>
            Except.error (OokError.valueError "\"property_name\" is not a recognized property.")
          | Option.some property_schema =>
            let value := o.get s PyValue.none
            let value_errors := vv s property_schema value
            if ¬value_errors.isEmpty ∧ raise_validation_error then
              Except.error (OokError.validationException value_errors)
            else
              Except.ok value_errors
  | _ => Except.error (OokError.valueError "\"property_name\" is not a valid string.")

/-!
State-threaded variants.  The frame claims of the spec (no mutation of the
record, no state surviving a call) are about the effect of a call on the
object it is given, so the two validation entry points are re-translated
below in explicit state-passing style: every operation the source performs
on `the_object` — `get_schema()` at line 138/184 and `get(...)` at line
139/189 — takes the current object state and returns the (possibly
updated) state next to its result.  Python `dict.get` and the schema
back-reference read are non-mutating reads, which is what
`OokObject.get_run` and `OokObject.get_schema_run` record. -/

/-- State-passing read of the bound schema: a pure read, the object state
passes through unchanged. -/
def OokObject.get_schema_run (o : OokObject) : OokObject × SchemaType :=
  (o, o.schema)

/-- State-passing `the_object.get(name, default)`: a pure read, the object
state passes through unchanged. -/
def OokObject.get_run (o : OokObject) (name : String) (default : PyValue) :
    OokObject × PyValue :=
  (o, o.get name default)

/-- State-threaded translation of the body of `validate_object` (source
lines 136..147) for an argument that passed the `isinstance` check: the
loop threads the object state through every `get` call. -/
def validate_object_run (vv : ValueValidator) (the_object : OokObject)
    (raise_value_error : Bool) : OokObject × Except OokError (List String) :=
  let sr := the_object.get_schema_run
  let fr := sr.2.items.foldl
    (fun (a : OokObject × List String) p =>
      let g := OokObject.get_run a.1 p.1 PyValue.none
      (g.1, a.2 ++ vv p.1 p.2 g.2)) (sr.1, [])
  if ¬fr.2.isEmpty ∧ raise_value_error then
    (fr.1, Except.error (OokError.validationException fr.2))
  else
    (fr.1, Except.ok fr.2)

/-- State-threaded translation of `validate_value` (source lines 170..197)
for an `ObjectType` argument: the schema read at line 184 and the value
read at line 189 thread the object state. -/
def validate_value_run (vv : ValueValidator) (property_name : PyValue)
    (ook_object : OokObject) (raise_validation_error : Bool) :
    OokObject × Except OokError (List String) :=
  match property_name with
  | PyValue.none =>
    (ook_object, Except.error (OokError.valueError "\"property_name\" is required, cannot be None."))
  | PyValue.str s =>
    if s.length < 1 then
      (ook_object, Except.error (OokError.valueError "\"property_name\" is not a valid string."))
    else
      let sr := ook_object.get_schema_run
      match sr.2.get s with
      | Option.none =>
        (sr.1, Except.error (OokError.valueError "\"property_name\" is not a recognized property."))
      | Option.some property_schema =>
        let g := OokObject.get_run sr.1 s PyValue.none
        let value_errors := vv s property_schema g.2
        if ¬value_errors.isEmpty ∧ raise_validation_error then
          (g.1, Except.error (OokError.validationException value_errors))
        else
          (g.1, Except.ok value_errors)
  | _ =>
    (ook_object, Except.error (OokError.valueError "\"property_name\" is not a valid string."))

/-- Concrete instance of the external per-value validator, used to
instantiate the parametric theorems at concrete inputs: it emits one
required-violation for an absent value of a required property (spec
section 4.3 step 1) and accepts everything else.  Per-value validation
itself lives in `meta_type.py`, outside the shown source, and the
theorems below hold for every validator. -/
def sample_validator : ValueValidator := fun name ps value =>
  match value with
  | PyValue.none => if ps.required then [name ++ " is required."] else []
  | _ => []

/-- Concrete required-property rule for instantiating theorems. -/
def samplePS : PropertySchema :=
  { property_type := Option.some "int", required := true }

/-- Concrete one-property schema for instantiating theorems. -/
def sampleSchema : SchemaType :=
  ⟨0, [("a", samplePS)]⟩

/-- Concrete object bound to `sampleSchema` with no stored values, so its
required property `a` is absent. -/
def sampleObj : OokObject :=
  ⟨sampleSchema, []⟩

/-! Helper lemmas shared by the claim theorems. -/

/-- Removing a key from an association list makes its lookup miss. -/
theorem alist_lookup_remove_self {β : Type} (l : List (String × β)) (n : String) :
    alist_lookup (alist_remove l n) n = Option.none := by
  induction l with
  | nil => rfl
  | cons a rest ih =>
    obtain ⟨k, v⟩ := a
    by_cases h : k = n <;> simp [alist_remove, alist_lookup, h, ih]

/-- Removing one key leaves lookups of every other key unchanged. -/
theorem alist_lookup_remove_ne {β : Type} (l : List (String × β)) (n k : String)
    (hk : k ≠ n) : alist_lookup (alist_remove l n) k = alist_lookup l k := by
  induction l with
  | nil => rfl
  | cons a rest ih =>
    obtain ⟨k₀, v⟩ := a
    by_cases h : k₀ = n
    · have hne : ¬k₀ = k := fun hkk => hk (hkk ▸ h)
      simp [alist_remove, alist_lookup, h, hne, ih, Ne.symm hk]
    · simp [alist_remove, alist_lookup, h, ih]

/-- Storing `None` under a name and deleting the name are indistinguishable
through `get` with a `None` default. -/
theorem get_set_none_view (o : OokObject) (n k : String) :
    (o.set n PyValue.none).get k PyValue.none = (o.erase n).get k PyValue.none := by
  by_cases h : n = k
  · subst h
    simp [OokObject.set, OokObject.erase, OokObject.get, alist_lookup,
      alist_lookup_remove_self]
  · simp [OokObject.set, OokObject.erase, OokObject.get, alist_lookup, h,
      alist_lookup_remove_ne o.values n k (fun hk => h hk.symm)]

/-- The extend-in-a-loop accumulation of the source is the concatenation of
the per-property violation lists. -/
theorem foldl_append_bind {α β : Type} (f : α → List β) :
    ∀ (l : List α) (acc : List β),
      l.foldl (fun ve a => ve ++ f a) acc = acc ++ l.flatMap f
  | [], acc => by simp
  | a :: l, acc => by
    rw [List.foldl_cons, foldl_append_bind f l (acc ++ f a), List.flatMap_cons,
      List.append_assoc]

/-- The violation list collected by `validate_object` is the concatenation,
in schema order, of the validator output for each property. -/
theorem collect_value_errors_eq_bind (vv : ValueValidator) (o : OokObject) :
    collect_value_errors vv o =
      o.get_schema.items.flatMap (fun p => vv p.1 p.2 (o.get p.1 PyValue.none)) := by
  rw [collect_value_errors, foldl_append_bind, List.nil_append]

/-- The collected violation list depends on the object only through its
bound schema and its get-with-None-default view. -/
theorem collect_value_errors_congr (vv : ValueValidator) (o₁ o₂ : OokObject)
    (hs : o₁.schema = o₂.schema)
    (hg : ∀ k, o₁.get k PyValue.none = o₂.get k PyValue.none) :
    collect_value_errors vv o₁ = collect_value_errors vv o₂ := by
  rw [collect_value_errors_eq_bind, collect_value_errors_eq_bind,
    show o₁.get_schema = o₂.get_schema from hs]
  exact congrArg _ (funext fun p => by rw [hg p.1])

/-- The whole-object validation result depends on the object only through
its bound schema and its get-with-None-default view. -/
theorem validate_object_congr (vv : ValueValidator) (o₁ o₂ : OokObject) (b : Bool)
    (hs : o₁.schema = o₂.schema)
    (hg : ∀ k, o₁.get k PyValue.none = o₂.get k PyValue.none) :
    validate_object vv (PyArg.obj o₁) b = validate_object vv (PyArg.obj o₂) b := by
  rw [validate_object, validate_object, collect_value_errors_congr vv o₁ o₂ hs hg]

/-- The single-property validation result depends on the object only
through its bound schema and its get-with-None-default view. -/
theorem validate_value_congr (vv : ValueValidator) (m : PyValue) (o₁ o₂ : OokObject)
    (b : Bool) (hs : o₁.schema = o₂.schema)
    (hg : ∀ k, o₁.get k PyValue.none = o₂.get k PyValue.none) :
    validate_value vv m (PyArg.obj o₁) b = validate_value vv m (PyArg.obj o₂) b := by
  cases m with
  | str s =>
    rw [validate_value, validate_value]
    have hsch : o₁.get_schema = o₂.get_schema := hs
    rw [hsch, hg s]
  | none => rfl
  | int n => rfl
  | bool b => rfl
  | list l => rfl

/-- The state-threaded violation loop leaves the object untouched and
accumulates exactly what the pure loop accumulates. -/
theorem run_fold_eq (vv : ValueValidator) (o : OokObject) :
    ∀ (l : List (String × PropertySchema)) (acc : List String),
      l.foldl
          (fun (a : OokObject × List String) p =>
            let g := OokObject.get_run a.1 p.1 PyValue.none
            (g.1, a.2 ++ vv p.1 p.2 g.2)) (o, acc) =
        (o, l.foldl (fun ve p => ve ++ vv p.1 p.2 (o.get p.1 PyValue.none)) acc)
  | [], acc => rfl
  | p :: l, acc => by
    rw [List.foldl_cons, List.foldl_cons]
    exact run_fold_eq vv o l (acc ++ vv p.1 p.2 (o.get p.1 PyValue.none))

/-- The state-threaded whole-object validation returns the unchanged object
next to the pure validation result. -/
theorem validate_object_run_eq (vv : ValueValidator) (o : OokObject) (b : Bool) :
    validate_object_run vv o b = (o, validate_object vv (PyArg.obj o) b) := by
  show (let sr := o.get_schema_run
        let fr := sr.2.items.foldl
          (fun (a : OokObject × List String) p =>
            let g := OokObject.get_run a.1 p.1 PyValue.none
            (g.1, a.2 ++ vv p.1 p.2 g.2)) (sr.1, [])
        if ¬fr.2.isEmpty ∧ b then
          (fr.1, Except.error (OokError.validationException fr.2))
        else
          (fr.1, Except.ok fr.2)) = _
  show (let fr := (SchemaType.items o.schema).foldl
          (fun (a : OokObject × List String) p =>
            let g := OokObject.get_run a.1 p.1 PyValue.none
            (g.1, a.2 ++ vv p.1 p.2 g.2)) (o, [])
        if ¬fr.2.isEmpty ∧ b then
          (fr.1, Except.error (OokError.validationException fr.2))
        else
          (fr.1, Except.ok fr.2)) = _
  rw [run_fold_eq vv o (SchemaType.items o.schema) []]
  show (if ¬(collect_value_errors vv o).isEmpty ∧ b then
          (o, Except.error (OokError.validationException (collect_value_errors vv o)))
        else (o, Except.ok (collect_value_errors vv o))) = _
  rw [validate_object]
  by_cases hc : ¬(collect_value_errors vv o).isEmpty ∧ b = true
  · rw [if_pos hc, if_pos hc]
  · rw [if_neg hc, if_neg hc]

/-- The state-threaded single-property validation returns the unchanged
object next to the pure validation result. -/
theorem validate_value_run_eq (vv : ValueValidator) (m : PyValue) (o : OokObject)
    (b : Bool) :
    validate_value_run vv m o b = (o, validate_value vv m (PyArg.obj o) b) := by
  cases m with
  | str s =>
    rw [validate_value_run, validate_value]
    by_cases hlen : s.length < 1
    · rw [if_pos hlen, if_pos hlen]
    · rw [if_neg hlen, if_neg hlen]
      show (match SchemaType.get o.schema s with
            | Option.none =>
              (o, Except.error
                (OokError.valueError "\"property_name\" is not a recognized property."))
            | Option.some property_schema =>
              if ¬(vv s property_schema (o.get s PyValue.none)).isEmpty ∧ b then
                (o, Except.error (OokError.validationException
                  (vv s property_schema (o.get s PyValue.none))))
              else
                (o, Except.ok (vv s property_schema (o.get s PyValue.none)))) = _
      cases hps : SchemaType.get o.schema s with
      | none =>
        show (o, _) = (o, _)
        rw [show OokObject.get_schema o = o.schema from rfl, hps]
      | some ps =>
        rw [show OokObject.get_schema o = o.schema from rfl, hps]
        show (if ¬(vv s ps (o.get s PyValue.none)).isEmpty ∧ b then
                (o, Except.error (OokError.validationException (vv s ps (o.get s PyValue.none))))
              else (o, Except.ok (vv s ps (o.get s PyValue.none)))) =
          (o, if ¬(vv s ps (o.get s PyValue.none)).isEmpty ∧ b then
                Except.error (OokError.validationException (vv s ps (o.get s PyValue.none)))
              else Except.ok (vv s ps (o.get s PyValue.none)))
        by_cases hc : ¬(vv s ps (o.get s PyValue.none)).isEmpty ∧ b = true
        · rw [if_pos hc, if_pos hc]
        · rw [if_neg hc, if_neg hc]
  | none => rfl
  | int n => rfl
  | bool b => rfl
  | list l => rfl

/-- Nonempty lists have length at least one. -/
theorem length_pos_of_not_isEmpty {α : Type} (l : List α) (h : ¬l.isEmpty) :
    1 ≤ l.length := by
  cases l with
  | nil => exact absurd rfl h
  | cons a t => exact Nat.succ_le_succ (Nat.zero_le _)

/-! The claim theorems. -/

/-- C1: for every schema-bound record, `validate_object` iterates every
(name, rule) pair of the schema in schema-declaration order, fetches the
value for that name with a None (absent) default, calls the per-value
validator on (name, rule, value), and returns the concatenation of the
resulting violation lists in schema order, deterministically. -/
theorem validate_object_schema_order_concat (vv : ValueValidator) (o : OokObject) :
    validate_object vv (PyArg.obj o) false =
      Except.ok ((SchemaType.items o.get_schema).flatMap
        (fun p => vv p.1 p.2 (o.get p.1 PyValue.none))) := by
  rw [← collect_value_errors_eq_bind]
  simp [validate_object]

/-- C4: for every argument that is not an `ObjectType` instance,
`validate_object` fails with `ValueError` (the InvalidArgument failure)
before any violation scan: the result does not depend on the per-value
validator and no violation list is produced. -/
theorem validate_object_rejects_non_object (vv vw : ValueValidator) (v : PyValue)
    (b : Bool) :
    validate_object vv (PyArg.val v) b =
      Except.error (OokError.valueError
        "Validation can only support validation of objects derived from ook.object_type.ObjectType.") ∧
    validate_object vv (PyArg.val v) b = validate_object vw (PyArg.val v) b :=
  ⟨rfl, rfl⟩

/-- C7: calling `validate_object` twice on the same unmodified record (with
the raise flag false) returns equal violation lists both times, the second
call operating on the object state the first call left behind. -/
theorem validate_object_idempotent (vv : ValueValidator) (o : OokObject) :
    (validate_object_run vv (validate_object_run vv o false).1 false).2 =
      (validate_object_run vv o false).2 ∧
    (validate_object_run vv (validate_object_run vv o false).1 false).1 = o := by
  have h := validate_object_run_eq vv o false
  exact ⟨by rw [h]; exact congrArg Prod.snd h, by rw [h]; exact congrArg Prod.fst h⟩

/-- C8: validation never mutates its inputs — the state-threaded
translations of `validate_object` and `validate_value` return the record
they were given unchanged (and with it the bound schema), whatever the
raise flag and property name. -/
theorem validation_no_mutation (vv : ValueValidator) (o : OokObject) (b : Bool)
    (m : PyValue) :
    (validate_object_run vv o b).1 = o ∧ (validate_value_run vv m o b).1 = o :=
  ⟨congrArg Prod.fst (validate_object_run_eq vv o b),
   congrArg Prod.fst (validate_value_run_eq vv m o b)⟩

/-- C9: a property whose stored value is None is indistinguishable from an
absent property — both entry points fetch with a None default, so storing
None under a name and deleting the name yield identical validation
results, for every record, property name and raise flag. -/
theorem none_value_equals_absent (vv : ValueValidator) (o : OokObject) (n : String)
    (m : PyValue) (b : Bool) :
    validate_object vv (PyArg.obj (o.set n PyValue.none)) b =
      validate_object vv (PyArg.obj (o.erase n)) b ∧
    validate_value vv m (PyArg.obj (o.set n PyValue.none)) b =
      validate_value vv m (PyArg.obj (o.erase n)) b :=
  ⟨validate_object_congr vv _ _ b rfl (fun k => get_set_none_view o n k),
   validate_value_congr vv m _ _ b rfl (fun k => get_set_none_view o n k)⟩

/-- C2: for every validation call, a non-empty collected violation list
with the raise flag true (the default) fails with `ValidationException`
carrying the full list (length at least one); with the flag false the list
is returned without failing; an empty list is returned without failing
regardless of the flag.  The `validate_object` contract holds for every
schema-bound record, a record bound to an empty schema included; the
`validate_value` contract holds whenever its single property name is a
non-empty string resolving in the schema of the object (anything else is
an InvalidArgument failure, settled by C3). -/
theorem validation_raise_flag_contract (vv : ValueValidator) (o : OokObject)
    (n : String) (ps : PropertySchema) :
    (¬(collect_value_errors vv o).isEmpty →
      validate_object vv (PyArg.obj o) true =
        Except.error (OokError.validationException (collect_value_errors vv o)) ∧
      1 ≤ (collect_value_errors vv o).length) ∧
    validate_object vv (PyArg.obj o) false = Except.ok (collect_value_errors vv o) ∧
    ((collect_value_errors vv o).isEmpty →
      ∀ b, validate_object vv (PyArg.obj o) b = Except.ok (collect_value_errors vv o)) ∧
    (1 ≤ n.length → SchemaType.get o.get_schema n = Option.some ps →
      (¬(vv n ps (o.get n PyValue.none)).isEmpty →
        validate_value vv (PyValue.str n) (PyArg.obj o) true =
          Except.error (OokError.validationException (vv n ps (o.get n PyValue.none))) ∧
        1 ≤ (vv n ps (o.get n PyValue.none)).length) ∧
      validate_value vv (PyValue.str n) (PyArg.obj o) false =
        Except.ok (vv n ps (o.get n PyValue.none)) ∧
      ((vv n ps (o.get n PyValue.none)).isEmpty →
        ∀ b, validate_value vv (PyValue.str n) (PyArg.obj o) b =
          Except.ok (vv n ps (o.get n PyValue.none)))) := by
  refine ⟨fun he => ?_, ?_, fun he b => ?_, fun hn hps => ?_⟩
  · constructor
    · simp only [validate_object]
      simp [he]
    · exact length_pos_of_not_isEmpty _ he
  · simp [validate_object]
  · simp only [validate_object]
    simp [he]
  · have hlen : ¬n.length < 1 := Nat.not_lt.mpr hn
    refine ⟨fun he => ?_, ?_, fun he b => ?_⟩
    · constructor
      · simp only [validate_value, if_neg hlen, hps]
        simp [he]
      · exact length_pos_of_not_isEmpty _ he
    · simp only [validate_value, if_neg hlen, hps]
      simp
    · simp only [validate_value, if_neg hlen, hps]
      simp [he]

/-- Witness for C2 at concrete inputs: the sample object misses its
required property, so the raising whole-object call fails with a
one-violation `ValidationException`, the non-raising single-property call
returns that list, and a record bound to an empty schema returns the empty
list under both flag values. -/
theorem validation_raise_flag_contract_witness :
    ¬(collect_value_errors sample_validator sampleObj).isEmpty ∧
    validate_object sample_validator (PyArg.obj sampleObj) true =
      Except.error (OokError.validationException ["a is required."]) ∧
    1 ≤ (collect_value_errors sample_validator sampleObj).length ∧
    validate_value sample_validator (PyValue.str "a") (PyArg.obj sampleObj) false =
      Except.ok ["a is required."] ∧
    validate_object sample_validator (PyArg.obj ⟨⟨1, []⟩, []⟩) true = Except.ok [] ∧
    validate_object sample_validator (PyArg.obj ⟨⟨1, []⟩, []⟩) false = Except.ok [] :=
  ⟨by decide,
   ((validation_raise_flag_contract sample_validator sampleObj "a" samplePS).1
      (by decide)).1,
   ((validation_raise_flag_contract sample_validator sampleObj "a" samplePS).1
      (by decide)).2,
   ((validation_raise_flag_contract sample_validator sampleObj "a" samplePS).2.2.2
      (by decide) rfl).2.1,
   (validation_raise_flag_contract sample_validator ⟨⟨1, []⟩, []⟩ "a" samplePS).2.2.1
      (by decide) true,
   (validation_raise_flag_contract sample_validator ⟨⟨1, []⟩, []⟩ "a" samplePS).2.1⟩

/-- C3: `validate_value` fails with `ValueError` (the InvalidArgument
failure), never returning or raising a soft violation list and
irrespective of the raise flag, whenever the property name is None, not a
string, or empty, whenever the object argument is None or not an
`ObjectType` instance, and whenever the named property has no rule in the
schema of the object. -/
theorem validate_value_invalid_argument (vv : ValueValidator)
    (property_name : PyValue) (ook_object : PyArg) (b : Bool)
    (h : property_name = PyValue.none ∨ (∀ s, property_name ≠ PyValue.str s) ∨
      property_name = PyValue.str "" ∨ (∃ v, ook_object = PyArg.val v) ∨
      (∃ o s, ook_object = PyArg.obj o ∧ property_name = PyValue.str s ∧
        SchemaType.get o.get_schema s = Option.none)) :
    ∃ msg, validate_value vv property_name ook_object b =
      Except.error (OokError.valueError msg) := by
  cases property_name with
  | none => exact ⟨_, rfl⟩
  | int i => exact ⟨_, rfl⟩
  | bool b₀ => exact ⟨_, rfl⟩
  | list l => exact ⟨_, rfl⟩
  | str s =>
    by_cases hlen : s.length < 1
    · refine ⟨"\"property_name\" is not a valid string.", ?_⟩
      simp only [validate_value]
      rw [if_pos hlen]
    · rcases h with h | h | h | ⟨v, rfl⟩ | ⟨o, s₀, rfl, hs, hlook⟩
      · exact absurd h (by simp)
      · exact absurd rfl (h s)
      · rw [show s = "" from by injection h] at hlen
        exact absurd (by decide) hlen
      · cases v with
        | none =>
          refine ⟨"\"ook_object\" is required, cannot be None.", ?_⟩
          simp only [validate_value]
          rw [if_neg hlen]
        | int i =>
          refine ⟨"\"ook_object\" must be ObjectType or child type of ObjectType.", ?_⟩
          simp only [validate_value]
          rw [if_neg hlen]
        | str t =>
          refine ⟨"\"ook_object\" must be ObjectType or child type of ObjectType.", ?_⟩
          simp only [validate_value]
          rw [if_neg hlen]
        | bool b₀ =>
          refine ⟨"\"ook_object\" must be ObjectType or child type of ObjectType.", ?_⟩
          simp only [validate_value]
          rw [if_neg hlen]
        | list l =>
          refine ⟨"\"ook_object\" must be ObjectType or child type of ObjectType.", ?_⟩
          simp only [validate_value]
          rw [if_neg hlen]
      · have hss : s₀ = s := by injection hs.symm
        subst hss
        refine ⟨"\"property_name\" is not a recognized property.", ?_⟩
        simp only [validate_value, if_neg hlen, hlook]

/-- Witness for C3 at a concrete input: an unknown property name on the
sample object fails with `ValueError`. -/
theorem validate_value_invalid_argument_witness :
    ∃ msg, validate_value sample_validator (PyValue.str "missing")
        (PyArg.obj sampleObj) true = Except.error (OokError.valueError msg) :=
  validate_value_invalid_argument sample_validator (PyValue.str "missing")
    (PyArg.obj sampleObj) true
    (Or.inr (Or.inr (Or.inr (Or.inr ⟨sampleObj, "missing", rfl, rfl, rfl⟩))))

/-- C5: `create_ook_type` fails with `ValueError` (the InvalidArgument
failure) exactly when the name argument is None or the empty string, or
the schema argument is None or neither a dict nor a `SchemaType`; in
particular a `SchemaType` value with a proper name is accepted. -/
theorem create_ook_type_argument_check (name : Option String)
    (schema : SchemaArg) (ctr : Nat) :
    (∃ msg, create_ook_type name schema ctr =
        Except.error (OokError.valueError msg)) ↔
      (name = Option.none ∨ name = Option.some "" ∨ schema = SchemaArg.pynone ∨
        ∃ v, schema = SchemaArg.other v) := by
  cases name with
  | none => simp [create_ook_type]
  | some n =>
    by_cases hn : n = ""
    · subst hn
      simp [create_ook_type]
    · cases schema <;> simp [create_ook_type, hn]

/-- C6: on success `create_ook_type` returns a newly minted type carrying
the given name, with `ObjectType` as base, whose `OOK_SCHEMA` is the given
schema coerced to a `SchemaType` — a fresh wrap of a plain dict, the given
object itself for a `SchemaType` — and every instance of the produced type
carries that schema as its back-reference. -/
theorem create_ook_type_success (n : String) (hn : ¬n = "") (ctr : Nat)
    (d : List (String × PropertySchema)) (s : SchemaType) :
    create_ook_type (Option.some n) (SchemaArg.dict d) ctr =
      Except.ok (⟨ctr, n, ["ObjectType"], ⟨ctr + 1, d⟩⟩, ctr + 2) ∧
    create_ook_type (Option.some n) (SchemaArg.schema s) ctr =
      Except.ok (⟨ctr, n, ["ObjectType"], s⟩, ctr + 1) ∧
    (OokTypeObj.new ⟨ctr, n, ["ObjectType"], ⟨ctr + 1, d⟩⟩).get_schema =
      ⟨ctr + 1, d⟩ ∧
    (OokTypeObj.new ⟨ctr, n, ["ObjectType"], s⟩).get_schema = s := by
  refine ⟨?_, ?_, rfl, rfl⟩ <;> simp [create_ook_type, hn]

/-- Witness for C6 at a concrete input: a nonempty name and the sample
schema produce the bound type. -/
theorem create_ook_type_success_witness :
    ¬("MyType" : String) = "" ∧
    create_ook_type (Option.some "MyType") (SchemaArg.schema sampleSchema) 5 =
      Except.ok (⟨5, "MyType", ["ObjectType"], sampleSchema⟩, 6) :=
  ⟨by decide,
   (create_ook_type_success "MyType" (by decide) 5 [("a", samplePS)]
      sampleSchema).2.1⟩

/-- C10: a `SchemaType` argument is bound to the produced type without
copying — two calls with the same `SchemaType` yield types with distinct
object ids whose `OOK_SCHEMA` is the identical schema object `s` — while a
plain dict is wrapped in a `SchemaType` carrying a freshly allocated id
(`ctr + 1`, above every previously allocated id). -/
theorem create_ook_type_shares_schema_object (n₁ n₂ : String) (h₁ : ¬n₁ = "")
    (h₂ : ¬n₂ = "") (s : SchemaType) (d : List (String × PropertySchema))
    (ctr : Nat) :
    create_ook_type (Option.some n₁) (SchemaArg.schema s) ctr =
      Except.ok (⟨ctr, n₁, ["ObjectType"], s⟩, ctr + 1) ∧
    create_ook_type (Option.some n₂) (SchemaArg.schema s) (ctr + 1) =
      Except.ok (⟨ctr + 1, n₂, ["ObjectType"], s⟩, ctr + 2) ∧
    ctr ≠ ctr + 1 ∧
    create_ook_type (Option.some n₁) (SchemaArg.dict d) ctr =
      Except.ok (⟨ctr, n₁, ["ObjectType"], ⟨ctr + 1, d⟩⟩, ctr + 2) ∧
    ctr < ctr + 1 := by
  refine ⟨?_, ?_, by omega, ?_, by omega⟩ <;> simp [create_ook_type, h₁, h₂]

/-- Witness for C10 at a concrete input: two types minted from the same
sample schema share it, with distinct type ids. -/
theorem create_ook_type_shares_schema_object_witness :
    create_ook_type (Option.some "T1") (SchemaArg.schema sampleSchema) 9 =
      Except.ok (⟨9, "T1", ["ObjectType"], sampleSchema⟩, 10) ∧
    create_ook_type (Option.some "T2") (SchemaArg.schema sampleSchema) 10 =
      Except.ok (⟨10, "T2", ["ObjectType"], sampleSchema⟩, 11) ∧
    (9 : Nat) ≠ 10 ∧
    create_ook_type (Option.some "T1") (SchemaArg.dict [("a", samplePS)]) 9 =
      Except.ok (⟨9, "T1", ["ObjectType"], ⟨10, [("a", samplePS)]⟩⟩, 11) ∧
    (9 : Nat) < 10 :=
  create_ook_type_shares_schema_object "T1" "T2" (by decide) (by decide)
    sampleSchema [("a", samplePS)] 9

end Ook
